import Mathlib

/-
Shallow embedding of notepy's interactive note finder and its SQL filter
translation, covering:
  - `Interactive.parse_text`, `Interactive.catch_key`, `Interactive.check_pos`,
    `Interactive.check_cursor_pos` and the `Interactive._main` event-loop body
    (src/notepy/cli/interactive_selection.py);
  - `DBManager.list_notes` (src/notepy/zettelkasten/sql.py): construction of the
    WHERE clause from per-column pattern lists and its evaluation semantics,
    with the sqlite execution abstracted as an oracle.

Strings are modelled as `List Char`.  Recursive scanners are written with an
explicit fuel argument (fuel := input length + 1, every step consumes at least
one character) so that all definitions are structurally recursive and reduce in
the kernel.
-/

namespace Notepy

/-! ## Python string primitives -/

/-- Python `s.replace(old, "")` with nonempty `old`: scan left to right, drop
every non-overlapping occurrence of `old`.  For `old = []` Python's
`replace("", "")` is the identity, matched by the guard.  Fuel-structural. -/
def pyReplaceFuel (old : List Char) : Nat → List Char → List Char
  | _, [] => []
  | 0, s => s
  | fuel + 1, c :: rest =>
    if old ≠ [] ∧ old.isPrefixOf (c :: rest) then
      pyReplaceFuel old fuel ((c :: rest).drop old.length)
    else
      c :: pyReplaceFuel old fuel rest

/-- Python `s.replace(old, "")`. -/
def pyReplace (s old : List Char) : List Char :=
  pyReplaceFuel old (s.length + 1) s

/-- Python `s.removeprefix(pre)`: drop `pre` once if it is a prefix. -/
def removeOnePre (pre s : List Char) : List Char :=
  if pre.isPrefixOf s then s.drop pre.length else s

/-- Python `s.removesuffix(suf)`: drop `suf` once if it is a suffix. -/
def removeOneSuf (suf s : List Char) : List Char :=
  if suf.isSuffixOf s then s.take (s.length - suf.length) else s

/-- ASCII whitespace stripped by Python `str.strip()`; the finder's query
buffer only ever contains characters inserted via `chr(c)` for ordinary key
codes, so the additional Unicode whitespace characters never occur here. -/
def isPySpace (c : Char) : Bool :=
  c == ' ' || c == '\t' || c == '\n' || c == '\r' || c == '\x0b' || c == '\x0c'

/-- Python `s.strip()`. -/
def pyStrip (s : List Char) : List Char :=
  ((s.dropWhile isPySpace).reverse.dropWhile isPySpace).reverse

/-! ## Regex scanners used by `Interactive.parse_text` -/

/-- Occurrences of `re.findall(r"#[^ ]*", text)`: at each `#`, the match is
the `#` followed by the maximal run of non-space characters; scanning resumes
after the match.  Fuel-structural. -/
def findTagsFuel : Nat → List Char → List (List Char)
  | _, [] => []
  | 0, _ => []
  | fuel + 1, c :: rest =>
    if c = '#' then
      (c :: rest.takeWhile (fun x => x != ' ')) ::
        findTagsFuel fuel (rest.dropWhile (fun x => x != ' '))
    else
      findTagsFuel fuel rest

/-- Occurrences of `re.findall(r"#[^ ]*", text)`. -/
def findTags (s : List Char) : List (List Char) :=
  findTagsFuel (s.length + 1) s

/-- Helper for the non-greedy `.*?\]\]` part of the link regex: split `s` at
the first occurrence of `]]`, returning the content before it and the rest
after it; `.` does not match a newline, so a newline before `]]` fails. -/
def splitAtCloseBr : List Char → Option (List Char × List Char)
  | ']' :: ']' :: rest => some ([], rest)
  | c :: rest =>
    if c = '\n' then none
    else
      match splitAtCloseBr rest with
      | some (content, rest') => some (c :: content, rest')
      | none => none
  | [] => none

/-- Occurrences of `re.findall(r"\[\[.*?\]\]", text)`: at each `[[`, take the
shortest span ending in `]]`; on failure move forward one character.
Fuel-structural. -/
def findLinksFuel : Nat → List Char → List (List Char)
  | _, [] => []
  | 0, _ => []
  | fuel + 1, c :: rest =>
    match c, rest with
    | '[', '[' :: rest2 =>
      (match splitAtCloseBr rest2 with
       | some (content, rest') =>
         ('[' :: '[' :: (content ++ [']', ']'])) :: findLinksFuel fuel rest'
       | none => findLinksFuel fuel rest)
    | _, _ => findLinksFuel fuel rest

/-- Occurrences of `re.findall(r"\[\[.*?\]\]", text)`. -/
def findLinks (s : List Char) : List (List Char) :=
  findLinksFuel (s.length + 1) s

/-! ## `Interactive.parse_text` -/

/-- Pattern built for a raw tag token: `"#%" + tag[1:] + "%"`. -/
def wrapTag (t : List Char) : List Char :=
  '#' :: '%' :: (t.drop 1 ++ ['%'])

/-- Pattern built for a raw link token:
`"%" + link.removeprefix("[[").removesuffix("]]") + "%"`. -/
def wrapLink (l : List Char) : List Char :=
  '%' :: (removeOneSuf [']', ']'] (removeOnePre ['[', '['] l) ++ ['%'])

/-- Body of the tag loop in `parse_text`: each raw tag is removed from the
text (all occurrences) and contributes one wrapped pattern. -/
def tagStep (acc : List Char × List (List Char)) (t : List Char) :
    List Char × List (List Char) :=
  (pyReplace acc.1 t, acc.2 ++ [wrapTag t])

/-- Body of the link loop in `parse_text`. -/
def linkStep (acc : List Char × List (List Char)) (l : List Char) :
    List Char × List (List Char) :=
  (pyReplace acc.1 l, acc.2 ++ [wrapLink l])

/-- `Interactive.parse_text(text)`: returns the stripped residual text, the
tag patterns (`none` when the list is empty, matching Python's
`tags if tags else None`) and the link patterns. -/
def parse_text (text : List Char) :
    List Char × Option (List (List Char)) × Option (List (List Char)) :=
  let rawTags := findTags text
  let rawLinks := findLinks text
  let tagRes := rawTags.foldl tagStep (text, [])
  let linkRes := rawLinks.foldl linkStep (tagRes.1, [])
  (pyStrip linkRes.1,
   if tagRes.2 = [] then none else some tagRes.2,
   if linkRes.2 = [] then none else some linkRes.2)

/-! ## `DBManager.list_notes`: WHERE-clause construction and semantics

The query built by `list_notes` is
`SELECT DISTINCT <show> FROM <joined view> WHERE g1 AND g2 AND ... <sort>`
where each populated column contributes the group
`col LIKE ? OR col NOT LIKE ? OR ...` (one disjunct per pattern, `NOT LIKE`
for patterns starting with `!`, joined with `" OR "`), and the groups are
joined with `" AND "` without parentheses.  We model the built query
structurally (`QueryParts`) and its evaluation on a joined row, honouring
SQL operator precedence (`AND` binds tighter than `OR`) for the
unparenthesized concatenation. -/

/-- Columns recognized by `list_notes`. -/
inductive Col where
  | title | zk_id | author | tag | link
deriving DecidableEq

/-- One emitted predicate: `col LIKE pattern` or `col NOT LIKE pattern`.
`negated` is `el.startswith("!")` and `pattern` is `el.removeprefix("!")`. -/
structure Atom where
  col : Col
  pattern : List Char
  negated : Bool
deriving DecidableEq

/-- Atoms emitted for one populated column, in pattern-list order. -/
def mkAtoms (c : Col) (pats : List (List Char)) : List Atom :=
  pats.map (fun el => ⟨c, removeOnePre ['!'] el, ['!'].isPrefixOf el⟩)

/-- The per-column predicate groups of `list_notes`, for the columns
`title, zk_id, author, tag, link` in the loop's order; an absent column
contributes no group. -/
def listNotesGroups (title zk_id author tag link : Option (List (List Char))) :
    List (List Atom) :=
  [(Col.title, title), (Col.zk_id, zk_id), (Col.author, author),
   (Col.tag, tag), (Col.link, link)].filterMap
    (fun p => p.2.map (mkAtoms p.1))

/-- SQLite `LIKE`: `%` matches any run, `_` a single character, other
characters compare ASCII-case-insensitively.  Fuel-structural (every step
shortens pattern + string). -/
def likeMatchFuel : Nat → List Char → List Char → Bool
  | 0, _, _ => false
  | _ + 1, [], [] => true
  | _ + 1, [], _ :: _ => false
  | fuel + 1, '%' :: ps, s =>
    likeMatchFuel fuel ps s ||
      (match s with
       | [] => false
       | _ :: s' => likeMatchFuel fuel ('%' :: ps) s')
  | fuel + 1, '_' :: ps, s =>
    (match s with
     | [] => false
     | _ :: s' => likeMatchFuel fuel ps s')
  | fuel + 1, p :: ps, s =>
    (match s with
     | [] => false
     | c :: s' => (p.toLower == c.toLower) && likeMatchFuel fuel ps s')

/-- SQLite `LIKE pattern` applied to a string. -/
def likeMatch (p s : List Char) : Bool :=
  likeMatchFuel (p.length + s.length + 1) p s

/-- One row of the outer-joined view, restricted to fully populated rows
(a note having at least one tag and one link; the claims about predicate
semantics quantify over such rows, avoiding SQL NULL three-valued logic). -/
structure DBRow where
  title : List Char
  zk_id : List Char
  author : List Char
  tag : List Char
  link : List Char
deriving DecidableEq

/-- Value of a column in a joined row. -/
def colVal (r : DBRow) : Col → List Char
  | .title => r.title
  | .zk_id => r.zk_id
  | .author => r.author
  | .tag => r.tag
  | .link => r.link

/-- Truth value of one emitted `LIKE` / `NOT LIKE` predicate on a row. -/
def evalAtom (r : DBRow) (a : Atom) : Bool :=
  if a.negated then ! likeMatch a.pattern (colVal r a.col)
  else likeMatch a.pattern (colVal r a.col)

/-- Separator standing before an atom in the flattened WHERE text: the very
first atom, an `OR` within a column group, or the `AND` joining two groups. -/
inductive Sep where
  | first | orSep | andSep
deriving DecidableEq

/-- Atoms of one group tagged with their preceding separator: the group's
first atom carries `s`, the remaining atoms carry `OR`. -/
def tagFirst (s : Sep) : List Atom → List (Sep × Atom)
  | [] => []
  | a :: as => (s, a) :: as.map (fun x => (Sep.orSep, x))

/-- The flattened token sequence of the WHERE clause built from nonempty
groups: groups are joined by `AND`, atoms inside a group by `OR`. -/
def flatSeps : List (List Atom) → List (Sep × Atom)
  | [] => []
  | g :: gs => tagFirst Sep.first g ++ (gs.map (tagFirst Sep.andSep)).flatten

/-- Fold step regrouping the flat token sequence into `AND`-chains: an atom
preceded by `AND` extends the current chain (kept at the head of the
accumulator), any other atom starts a new chain. -/
def chainStep (acc : List (List Atom)) (t : Sep × Atom) : List (List Atom) :=
  match t.1, acc with
  | Sep.andSep, cur :: rest => (cur ++ [t.2]) :: rest
  | _, acc => [t.2] :: acc

/-- Because the generated clause has no parentheses, SQL precedence
(`AND` over `OR`) regroups the flat token sequence into `AND`-chains split at
each `OR`; the clause is the disjunction of the conjunctions of the chains. -/
def andChains (toks : List (Sep × Atom)) : List (List Atom) :=
  toks.foldl chainStep []

/-- Truth value of the unparenthesized WHERE clause on a row. -/
def evalWhere (r : DBRow) (groups : List (List Atom)) : Bool :=
  (andChains (flatSeps groups)).any (fun ch => ch.all (evalAtom r))

/-- Whether a joined row satisfies the filter that `list_notes` executes for
the given per-column pattern lists: no populated column means no WHERE clause
(every row matches).  Defined for well-formed inputs (each provided pattern
list nonempty, as produced by the finder); an empty provided list would make
`list_notes` emit malformed SQL. -/
def listNotesMatches (r : DBRow)
    (title zk_id author tag link : Option (List (List Char))) : Bool :=
  let groups := listNotesGroups title zk_id author tag link
  if groups.isEmpty then true else evalWhere r groups

/-! ## `list_notes`: execution and error handling -/

/-- Errors raised by the sqlite driver during `cur.execute`. -/
inductive SqlError where
  | operationalError (msg : List Char)
deriving DecidableEq

/-- The `DBManagerException` raised by `list_notes`. -/
structure DBManagerException where
  msg : List Char
deriving DecidableEq

/-- Message text `list_notes` wraps around the sqlite error. -/
def dbErrorMessage : List Char :=
  "Something went wrong. Have you tried indexing your notes first?\nError: ".data

/-- The query parts `list_notes` assembles before executing. -/
structure QueryParts where
  showCols : List (List Char)
  groups : List (List Atom)
  sort_by : Option (List Char)
  descending : Bool

/-- `DBManager.list_notes` with the sqlite execution abstracted as the oracle
`execQuery` (rows of result type `α`): builds the query parts, executes, and
turns an `OperationalError` — which is what sqlite raises when the index
tables are missing — into a `DBManagerException`. -/
def list_notes {α : Type} (execQuery : QueryParts → Except SqlError (List α))
    (title zk_id author tag link : Option (List (List Char)))
    (sort_by : Option (List Char)) (descending : Bool)
    (showCols : List (List Char)) : Except DBManagerException (List α) :=
  match execQuery ⟨showCols, listNotesGroups title zk_id author tag link,
                   sort_by, descending⟩ with
  | .ok rs => .ok rs
  | .error (.operationalError m) => .error ⟨dbErrorMessage ++ m⟩

/-! ## Spec-side filter semantics (refinement target for claim C1)

Stated from the spec's words, for comparison with `listNotesMatches`:
non-negated patterns of a column are OR-ed, negated ones AND-NOT-ed, and
columns are AND-ed. -/

/-- Spec semantics of one column group: at least one non-negated pattern
matches and no negated pattern matches. -/
def specColumnGroup (r : DBRow) (g : List Atom) : Bool :=
  (g.filter (fun a => ! a.negated)).any
      (fun a => likeMatch a.pattern (colVal r a.col)) &&
    (g.filter (fun a => a.negated)).all
      (fun a => ! likeMatch a.pattern (colVal r a.col))

/-- Spec semantics of a whole filter: the conjunction of its column groups. -/
def specMatches (r : DBRow) (groups : List (List Atom)) : Bool :=
  groups.all (specColumnGroup r)

/-- A concrete joined row used as the record in the refutation of claim C1:
its title is "c", matched against the patterns "%a%" and "!%b%". -/
def sampleRow : DBRow :=
  ⟨"c".data, "20240101".data, "ada".data, "#t".data, "lnk".data⟩

/-! ## `Interactive` finder state machine

Positions and the insertion cursor are Python ints, modelled as `Int`
(slicing indices reaching Lean's `List.take`/`List.drop` are first clamped to
`Nat` via `Int.toNat`; on the reachable states they are non-negative, where
this agrees with Python slicing).  `POSITION_OFFSET = 2`. -/

/-- Decoded key events consumed by `catch_key`.  Escape is handled by the
loop condition before `catch_key` runs and therefore has no constructor;
`enter` covers `KEY_ENTER` and the two alternate enter codes; any unmapped
key code reaches the default branch as `char (chr c)`. -/
inductive Key where
  | enter | up | down | resize | backspace | delForward | left | right
  | char (c : Char)
deriving DecidableEq

/-- `Interactive.check_cursor_pos(text, pos)`: clamp `pos` into
`[0, len(text)]`. -/
def check_cursor_pos (text : List Char) (pos : Int) : Int :=
  let pos := if pos < 0 then 0 else pos
  if pos > (text.length : Int) then (text.length : Int) else pos

/-- Result of `Interactive.catch_key`: the updated text, result position,
loop-exit flag, redraw flag, and the updated `self.cursor_pos` and
`self.relative_start`. -/
structure KeyResult where
  text : List Char
  pos : Int
  endit : Bool
  redraw : Bool
  cursor : Int
  relStart : Int
deriving DecidableEq

/-- `Interactive.catch_key(c, text, pos)` together with its effect on the
instance fields `cursor_pos` and `relative_start`.  `COLS` is the terminal
width `curses.COLS`. -/
def catch_key (COLS : Nat) (c : Key) (text : List Char) (pos : Int)
    (cursor relStart : Int) : KeyResult :=
  match c with
  | .enter => ⟨text, pos, true, false, cursor, relStart⟩
  | .up => ⟨text, pos - 1, false, false, cursor, relStart⟩
  | .down => ⟨text, pos + 1, false, false, cursor, relStart⟩
  | .resize => ⟨text, pos, false, true, cursor, relStart⟩
  | .backspace =>
    let cp := check_cursor_pos text (cursor - 1)
    let newText :=
      if cursor > 0 then text.take cp.toNat ++ text.drop (cp.toNat + 1)
      else text
    if text ≠ newText then ⟨newText, 0, false, false, cp, 0⟩
    else ⟨newText, pos, false, false, cp, relStart⟩
  | .delForward =>
    let newText :=
      if cursor ≤ (text.length : Int) then
        text.take cursor.toNat ++ text.drop (cursor.toNat + 1)
      else text
    if text ≠ newText then ⟨newText, 0, false, false, cursor, 0⟩
    else ⟨newText, pos, false, false, cursor, relStart⟩
  | .left =>
    ⟨text, pos, false, false, (cursor - 1).emod ((text.length : Int) + 1),
     relStart⟩
  | .right =>
    ⟨text, pos, false, false, (cursor + 1).emod ((text.length : Int) + 1),
     relStart⟩
  | .char ch =>
    let t1 := text.take cursor.toNat ++ [ch] ++ text.drop cursor.toNat
    let t2 := t1.take (COLS - 1)
    let cursor' := if cursor < (COLS : Int) - 1 then cursor + 1 else cursor
    ⟨t2, 0, false, false, cursor', 0⟩

/-- Result of `Interactive.check_pos`: clamped position, updated
`relative_start`, redraw flag. -/
structure PosResult where
  pos : Int
  relStart : Int
  redraw : Bool
deriving DecidableEq

/-- `Interactive.check_pos(pos, results)` with `length = len(results)` and
`LINES = curses.LINES`.  The preliminary `relative_start` update (from
`current_position > LINES`) is overwritten inside the `pos < 0` branch,
exactly as in the source where the field is reassigned there. -/
def check_pos (LINES : Nat) (relStart pos : Int) (length : Nat) : PosResult :=
  let relStart' :=
    if pos - relStart + 2 > (LINES : Int) then pos - (LINES : Int) + 2
    else relStart
  if pos < 0 then
    if (length : Int) ≥ (LINES : Int) - 2 then
      ⟨(length : Int) - 1, (length : Int) - ((LINES : Int) - 2), true⟩
    else
      ⟨(length : Int) - 1, 0, false⟩
  else if pos > (length : Int) - 1 then ⟨0, 0, true⟩
  else if pos - relStart' ≥ (LINES : Int) - 2 then ⟨pos, relStart' + 1, true⟩
  else if pos - relStart' < 0 then ⟨pos, relStart' - 1, true⟩
  else ⟨pos, relStart', false⟩

/-- State carried across iterations of the `Interactive._main` event loop.
Result rows are `(title, zk_id)` pairs as selected by
`show=['title', 'zk_id']`.  The purely visual field `prev_relative_start`
(used only by `draw_pointer`) is omitted. -/
structure FState where
  text : List Char
  pos : Int
  relStart : Int
  cursor : Int
  results : List (List Char × Nat)
deriving DecidableEq

/-- The search collaborator `self.zk.list_notes(title=..., tags=..., links=...)`
as consumed by `_main`: title pattern list, optional tag and link pattern
lists, returning rows or raising. -/
abbrev SearchFun :=
  List (List Char) → Option (List (List Char)) → Option (List (List Char)) →
    Except DBManagerException (List (List Char × Nat))

/-- One iteration of the `while` body of `Interactive._main` for a non-escape
key: `catch_key`, early exit on `endit` (`.ok none`), `check_pos`, and — when
the text changed or a redraw was requested — `parse_text` followed by the
lookup `zk.list_notes(title=["%" + parsed + "%"], tags=tags, links=links)`.
The source has no exception handler here, so a lookup error is propagated
as `.error`. -/
def mainStep (LINES COLS : Nat) (search : SearchFun) (c : Key) (s : FState) :
    Except DBManagerException (Option FState) :=
  let r := catch_key COLS c s.text s.pos s.cursor s.relStart
  if r.endit then .ok none
  else
    let p := check_pos LINES r.relStart r.pos s.results.length
    if (r.text != s.text) || p.redraw || r.redraw then
      let parsed := parse_text r.text
      match search [('%' :: parsed.1) ++ ['%']] parsed.2.1 parsed.2.2 with
      | .error e => .error e
      | .ok res => .ok (some ⟨r.text, p.pos, p.relStart, r.cursor, res⟩)
    else
      .ok (some ⟨r.text, p.pos, p.relStart, r.cursor, s.results⟩)

/-! ## Helper lemmas -/

/-- The tag loop threads the text replacement through but simply appends one
wrapped pattern per raw tag occurrence. -/
theorem foldl_tagStep_snd (l : List (List Char)) :
    ∀ t acc, (l.foldl tagStep (t, acc)).2 = acc ++ l.map wrapTag := by
  induction l with
  | nil => intro t acc; simp
  | cons x xs ih => intro t acc; simp [tagStep, ih]

/-- The link loop appends one wrapped pattern per raw link occurrence. -/
theorem foldl_linkStep_snd (l : List (List Char)) :
    ∀ t acc, (l.foldl linkStep (t, acc)).2 = acc ++ l.map wrapLink := by
  induction l with
  | nil => intro t acc; simp
  | cons x xs ih => intro t acc; simp [linkStep, ih]

/-- An atom not preceded by `AND` always starts a fresh chain. -/
theorem chainStep_ne_and (acc : List (List Atom)) (t : Sep × Atom)
    (h : t.1 ≠ Sep.andSep) : chainStep acc t = [t.2] :: acc := by
  cases ht : t.1 <;> cases acc <;> simp_all [chainStep]

/-- Folding `chainStep` over a token run without `AND` separators produces
one singleton chain per atom (in reverse), on top of the accumulator. -/
theorem foldl_chainStep_no_and (toks : List (Sep × Atom))
    (h : ∀ t ∈ toks, t.1 ≠ Sep.andSep) :
    ∀ acc, toks.foldl chainStep acc = (toks.map (fun t => [t.2])).reverse ++ acc := by
  induction toks with
  | nil => intro acc; simp
  | cons t ts ih =>
    intro acc
    rw [List.foldl_cons, chainStep_ne_and acc t (h t (by simp))]
    rw [ih (fun x hx => h x (by simp [hx]))]
    simp

/-- Atoms of a single-column WHERE clause carry no `AND` separator. -/
theorem tagFirst_no_and (g : List Atom) :
    ∀ t ∈ tagFirst Sep.first g, t.1 ≠ Sep.andSep := by
  cases g with
  | nil => simp [tagFirst]
  | cons a as =>
    intro t ht
    simp [tagFirst] at ht
    rcases ht with h1 | ⟨x, _, h2⟩
    · simp [h1]
    · simp [← h2]

/-- Disjunction over singleton chains is disjunction over the atoms. -/
theorem any_map_singleton (as : List Atom) (f : Atom → Bool) :
    (List.map (fun x => [x]) as).any (fun ch => ch.all f) = as.any f := by
  induction as with
  | nil => simp
  | cons a as ih => simp [ih]

/-- Disjunction of the atoms of one column, unfolded to the pattern lists. -/
theorem mkAtoms_any (r : DBRow) (c : Col) (pats : List (List Char)) :
    (mkAtoms c pats).any (evalAtom r) =
      pats.any (fun el =>
        if ['!'].isPrefixOf el then
          ! likeMatch (removeOnePre ['!'] el) (colVal r c)
        else
          likeMatch (removeOnePre ['!'] el) (colVal r c)) := by
  induction pats with
  | nil => rfl
  | cons p ps ih =>
    simp only [mkAtoms, List.map_cons, List.any_cons] at ih ⊢
    rw [ih]
    rfl

/-- A single-column WHERE clause is the plain disjunction of its atoms. -/
theorem evalWhere_single (r : DBRow) (g : List Atom) :
    evalWhere r [g] = g.any (evalAtom r) := by
  have hf : flatSeps [g] = tagFirst Sep.first g := by simp [flatSeps]
  unfold evalWhere andChains
  rw [hf, foldl_chainStep_no_and _ (tagFirst_no_and g) []]
  cases g with
  | nil => simp [tagFirst]
  | cons a as =>
    simp [tagFirst, Function.comp_def, any_map_singleton, Bool.or_comm]

/-! ## Claim C10 -/

/-- C10: for the query text "[[a#b]]" the hash run inside the link delimiters
is extracted both as the tag pattern "#%b]]%" (keeping the trailing
delimiters) and inside the link pattern "%a#b%", and since the tag substring
is removed before link removal the residual text keeps the orphaned opening
delimiter "[[a". -/
theorem tag_inside_link_double_extraction :
    parse_text "[[a#b]]".data =
      ("[[a".data, some ["#%b]]%".data], some ["%a#b%".data]) := by
  decide

/-! ## Claim C6 -/

/-- C6: the query text "meeting #work" compiles to residual text "meeting"
with the single tag pattern "#%work%", and the filter executed by the finder
(title pattern "%meeting%", the compiled tag patterns) consists of the two
non-negated predicate groups on title and tag. -/
theorem meeting_work_scenario :
    parse_text "meeting #work".data =
      ("meeting".data, some ["#%work%".data], none) ∧
    listNotesGroups (some ["%meeting%".data]) none none
        (some ["#%work%".data]) none =
      [[⟨Col.title, "%meeting%".data, false⟩],
       [⟨Col.tag, "#%work%".data, false⟩]] := by
  decide

/-! ## Claim C3 -/

/-- C3 counterexample: compiling "!#draft" does not mark the tag pattern as
negated — the tag regex matches only "#draft", the "!" stays in the residual
free text, and the atom emitted for the pattern "#%draft%" has
`negated = false` (negation would require the pattern itself to start
with "!"). -/
theorem bang_tag_counterexample :
    parse_text "!#draft".data = ("!".data, some ["#%draft%".data], none) ∧
    ∀ a ∈ mkAtoms Col.tag ["#%draft%".data], a.negated = false := by
  decide

/-- C3 amended: compiling "!#draft" yields residual text "!" and the
non-negated tag pattern "#%draft%"; the executed filter consists of the two
non-negated groups `title LIKE "%!%"` and `tag LIKE "#%draft%"`, so notes
carrying a matching tag are selected, not excluded. -/
theorem bang_tag_amended :
    parse_text "!#draft".data = ("!".data, some ["#%draft%".data], none) ∧
    listNotesGroups (some ["%!%".data]) none none
        (some ["#%draft%".data]) none =
      [[⟨Col.title, "%!%".data, false⟩],
       [⟨Col.tag, "#%draft%".data, false⟩]] := by
  decide

/-! ## Claim C8 -/

/-- C8 counterexample: the query text "#a #a" contains one distinct tag token
twice, yet the compiled tag column holds two identical entries — duplicate
tokens are not deduplicated. -/
theorem duplicate_tokens_counterexample :
    parse_text "#a #a".data = ([], some ["#%a%".data, "#%a%".data], none) ∧
    ¬ ((parse_text "#a #a".data).2.1.getD []).Nodup := by
  decide

/-- C8 amended: for every query text the compiled tag and link columns hold
exactly one entry per token occurrence found by the scans (in scan order),
with no deduplication, so a token occurring several times contributes several
identical entries. -/
theorem token_entries_one_per_occurrence (text : List Char) :
    (parse_text text).2.1 =
      (if findTags text = [] then none
       else some ((findTags text).map wrapTag)) ∧
    (parse_text text).2.2 =
      (if findLinks text = [] then none
       else some ((findLinks text).map wrapLink)) := by
  unfold parse_text
  simp only [foldl_tagStep_snd, foldl_linkStep_snd, List.nil_append]
  constructor <;> split <;> simp_all

/-! ## Claim C5 -/

/-- C5 counterexample: with an empty result list and a non-negative incoming
selection (the state after any text edit), the clamping step returns
selection 0, not -1. -/
theorem empty_results_counterexample :
    (check_pos 24 0 0 0).pos = 0 ∧ (check_pos 24 0 0 0).pos ≠ -1 := by
  decide

/-- C5 amended: when the result list is empty, the clamping step yields
selection -1 only when the incoming selection was negative (a select-up);
any non-negative incoming selection is clamped to 0 instead. -/
theorem empty_results_selection (LINES : Nat) (relStart pos : Int) :
    (check_pos LINES relStart pos 0).pos = if pos < 0 then -1 else 0 := by
  unfold check_pos
  split_ifs <;> simp_all <;> omega

/-! ## Claim C4 -/

/-- C4: whenever the underlying sqlite execution fails with an
`OperationalError` — which is what happens for every lookup while the index
tables have not been created — `list_notes` raises a `DBManagerException`
wrapping the error, and in particular never returns a result list (so an
empty index is distinguishable from an empty result). -/
theorem missing_index_raises (α : Type) (m : List Char)
    (title zk_id author tag link : Option (List (List Char)))
    (sort_by : Option (List Char)) (descending : Bool)
    (showCols : List (List Char)) :
    list_notes
        (fun _ => Except.error (SqlError.operationalError m) :
          QueryParts → Except SqlError (List α))
        title zk_id author tag link sort_by descending showCols =
      .error ⟨dbErrorMessage ++ m⟩ ∧
    ∀ rs : List α,
      list_notes
          (fun _ => Except.error (SqlError.operationalError m) :
            QueryParts → Except SqlError (List α))
          title zk_id author tag link sort_by descending showCols ≠
        .ok rs := by
  refine ⟨rfl, fun rs h => ?_⟩
  exact Except.noConfusion h

/-! ## Claim C1 -/

/-- C1 counterexample: for the title column holding the non-negated pattern
"%a%" and the negated pattern "!%b%", the executed lookup accepts a record
with title "c" (it satisfies `title NOT LIKE "%b%"`), while the claimed
OR / AND-NOT combination rejects it (it matches no non-negated pattern): the
executed clause joins all of a column's predicates with OR. -/
theorem mixed_negation_counterexample :
    listNotesMatches sampleRow
        (some ["%a%".data, "!%b%".data]) none none none none = true ∧
    specMatches sampleRow
        (listNotesGroups (some ["%a%".data, "!%b%".data]) none none none none)
      = false := by
  decide

/-- C1 amended: for a filter populating a single column, the executed lookup
joins all of that column's patterns with OR — a record matches iff it matches
at least one non-negated pattern or fails to match at least one negated
pattern.  (Moreover the emitted groups carry no parentheses, so with several
populated columns SQL precedence regroups the clause instead of AND-ing the
whole groups; see `flatSeps`/`andChains`.) -/
theorem single_column_or_semantics (r : DBRow) (pats : List (List Char))
    (h : pats ≠ []) :
    listNotesMatches r (some pats) none none none none =
      pats.any (fun el =>
        if ['!'].isPrefixOf el then
          ! likeMatch (removeOnePre ['!'] el) r.title
        else
          likeMatch (removeOnePre ['!'] el) r.title) := by
  have hg : listNotesGroups (some pats) none none none none =
      [mkAtoms Col.title pats] := rfl
  unfold listNotesMatches
  rw [hg]
  have hne : (mkAtoms Col.title pats) ≠ [] := by
    cases pats with
    | nil => exact absurd rfl h
    | cons p ps => simp [mkAtoms]
  rw [if_neg (by simp)]
  rw [evalWhere_single, mkAtoms_any]
  rfl

/-- Witness for `single_column_or_semantics` at the counterexample's input. -/
theorem single_column_or_semantics_witness :
    listNotesMatches sampleRow
        (some ["%a%".data, "!%b%".data]) none none none none =
      (["%a%".data, "!%b%".data]).any (fun el =>
        if ['!'].isPrefixOf el then
          ! likeMatch (removeOnePre ['!'] el) sampleRow.title
        else
          likeMatch (removeOnePre ['!'] el) sampleRow.title) :=
  single_column_or_semantics sampleRow ["%a%".data, "!%b%".data] (by decide)

/-! ## Claim C2 -/

/-- C2 counterexample: when the lookup raises (index unavailable), the event
loop body of `_main` does not catch the error and does not produce any
follow-up state (no empty result list, no further key handling): the
exception propagates out of the loop. -/
theorem lookup_error_counterexample :
    mainStep 24 80
        (fun _ _ _ => .error ⟨"no such table: zettelkasten".data⟩)
        (Key.char 'a') ⟨[], 0, 0, 0, []⟩ =
      .error ⟨"no such table: zettelkasten".data⟩ ∧
    ∀ s : Option FState,
      mainStep 24 80
          (fun _ _ _ => .error ⟨"no such table: zettelkasten".data⟩)
          (Key.char 'a') ⟨[], 0, 0, 0, []⟩ ≠ .ok s :=
  ⟨rfl, fun _ h => Except.noConfusion h⟩

/-- C2 amended: `_main` has no handler around the lookup, so whenever a key
event changes the buffer (here: any printable character inserted while the
buffer is below the width limit) and the lookup fails, the loop body
propagates the error instead of rendering an empty result list. -/
theorem lookup_error_propagates (LINES COLS : Nat) (e : DBManagerException)
    (ch : Char) (s : FState) (h : s.text.length < COLS - 1) :
    mainStep LINES COLS (fun _ _ _ => .error e) (Key.char ch) s = .error e := by
  have hlen :
      ((s.text.take s.cursor.toNat ++ [ch] ++ s.text.drop s.cursor.toNat).take
          (COLS - 1)).length = s.text.length + 1 := by
    simp only [List.length_take, List.length_append, List.length_drop,
      List.length_cons, List.length_nil]
    omega
  have hne :
      ((s.text.take s.cursor.toNat ++ [ch] ++ s.text.drop s.cursor.toNat).take
          (COLS - 1)) ≠ s.text := by
    intro hEq
    have hl2 := congrArg List.length hEq
    rw [hlen] at hl2
    omega
  have hbne :
      (((s.text.take s.cursor.toNat ++ [ch] ++
          s.text.drop s.cursor.toNat).take (COLS - 1)) != s.text) = true := by
    simpa [bne_iff_ne] using hne
  unfold mainStep catch_key
  simp only [Bool.false_eq_true, if_false, hbne, Bool.true_or, if_true]

/-- Witness for `lookup_error_propagates` on the initial finder state. -/
theorem lookup_error_propagates_witness :
    mainStep 24 80 (fun _ _ _ => .error ⟨"idx".data⟩) (Key.char 'b')
        ⟨[], 0, 0, 0, []⟩ = .error ⟨"idx".data⟩ :=
  lookup_error_propagates 24 80 ⟨"idx".data⟩ 'b' ⟨[], 0, 0, 0, []⟩ (by decide)

/-! ## Claim C7 -/

/-- C7: with at least as many results as visible rows and the selection at 0,
a select-up event followed by the clamping step wraps the selection to `N-1`
and jumps the viewport to `N - H` where `H = LINES - 2` is the visible row
count, marking a full redraw. -/
theorem select_up_wraparound (LINES COLS N : Nat) (relStart : Int)
    (text : List Char) (cursor : Int)
    (h : (LINES : Int) - 2 ≤ (N : Int)) :
    check_pos LINES (catch_key COLS Key.up text 0 cursor relStart).relStart
        (catch_key COLS Key.up text 0 cursor relStart).pos N =
      ⟨(N : Int) - 1, (N : Int) - ((LINES : Int) - 2), true⟩ := by
  show check_pos LINES relStart (0 - 1) N = _
  unfold check_pos
  rw [if_pos (by omega)]
  rw [if_pos (by omega)]

/-- Witness for `select_up_wraparound`: 10 results, 4 terminal rows. -/
theorem select_up_wraparound_witness :
    check_pos 4 (catch_key 80 Key.up [] 0 0 0).relStart
        (catch_key 80 Key.up [] 0 0 0).pos 10 =
      ⟨((10 : Nat) : Int) - 1, ((10 : Nat) : Int) - (((4 : Nat) : Int) - 2),
       true⟩ :=
  select_up_wraparound 4 80 10 0 [] 0 (by norm_num)

/-! ## Claim C9 -/

/-- C9: inserting a printable character truncates the buffer to width
`COLS - 1` (so the buffer never exceeds `COLS - 1` characters), advances the
cursor exactly when it is strictly below `COLS - 1`, and thereby preserves
the invariant `0 ≤ cursor ≤ len(buffer)`. -/
theorem insertion_preserves_cursor_invariant (COLS : Nat) (ch : Char)
    (text : List Char) (pos relStart cursor : Int)
    (hC : 1 ≤ COLS) (h0 : 0 ≤ cursor) (hc : cursor ≤ (text.length : Int))
    (hl : text.length ≤ COLS - 1) :
    (catch_key COLS (Key.char ch) text pos cursor relStart).text.length =
      min (text.length + 1) (COLS - 1) ∧
    (catch_key COLS (Key.char ch) text pos cursor relStart).cursor =
      (if cursor < (COLS : Int) - 1 then cursor + 1 else cursor) ∧
    0 ≤ (catch_key COLS (Key.char ch) text pos cursor relStart).cursor ∧
    (catch_key COLS (Key.char ch) text pos cursor relStart).cursor ≤
      (((catch_key COLS (Key.char ch) text pos cursor relStart).text.length :
        Nat) : Int) := by
  refine ⟨?_, rfl, ?_, ?_⟩
  · show ((text.take cursor.toNat ++ [ch] ++ text.drop cursor.toNat).take
        (COLS - 1)).length = _
    simp only [List.length_take, List.length_append, List.length_drop,
      List.length_cons, List.length_nil]
    omega
  · show 0 ≤ (if cursor < (COLS : Int) - 1 then cursor + 1 else cursor)
    split <;> omega
  · show (if cursor < (COLS : Int) - 1 then cursor + 1 else cursor) ≤
      ((((text.take cursor.toNat ++ [ch] ++ text.drop cursor.toNat).take
          (COLS - 1)).length : Nat) : Int)
    simp only [List.length_take, List.length_append, List.length_drop,
      List.length_cons, List.length_nil]
    split <;> push_cast <;> omega

/-- Witness for `insertion_preserves_cursor_invariant`: inserting into a
two-character buffer at cursor 1 on an 80-column terminal. -/
theorem insertion_invariant_witness :
    (catch_key 80 (Key.char 'x') ['a', 'b'] 0 1 0).text.length =
      min (['a', 'b'].length + 1) (80 - 1) ∧
    (catch_key 80 (Key.char 'x') ['a', 'b'] 0 1 0).cursor =
      (if (1 : Int) < (80 : Nat) - 1 then 1 + 1 else 1) ∧
    0 ≤ (catch_key 80 (Key.char 'x') ['a', 'b'] 0 1 0).cursor ∧
    (catch_key 80 (Key.char 'x') ['a', 'b'] 0 1 0).cursor ≤
      (((catch_key 80 (Key.char 'x') ['a', 'b'] 0 1 0).text.length : Nat) :
        Int) :=
  insertion_preserves_cursor_invariant 80 'x' ['a', 'b'] 0 0 1 (by decide)
    (by decide) (by decide) (by decide)

end Notepy
